import Mathlib

/-!
Verification of the ChargePoint-Notifier station monitor (src/index.js).

The source is a polling loop: it authenticates against the ChargePoint API,
fetches a per-outlet occupancy snapshot, diffs it against in-memory state
(`chargingUsers` / `onHoldUsers`, keyed by outlet number), and emits Slack
notifications for state transitions.  Times (`startTime`, `currTime`,
`maxChargingTime`, the warning offset) are JavaScript numbers holding
integer-valued epoch quantities; `startTime` is `parseInt(pluginEpochTime)/1000`,
an exact division in JS numbers for the magnitudes involved, so all time
quantities are embedded as rationals.  Subscriber ids are opaque; entries may
lack one (`undefined`), embedded as `Option Nat`.  Notification dispatch is
modelled as an emitted event list; the message text is abstracted to the data
interpolated into it (occupant name, computed end time, resolved recipient id).
-/

namespace ChargePointNotifier

/-- A charging-track record as built by `getChargePointStationQueueDetail`
(src/index.js lines 252-259): `id := subscriberId` (possibly undefined),
`name := subscriberEvatarName`, `status := subscriberQueueState`,
`startTime := parseInt(pluginEpochTime) / 1000`, `outlet := outletNumber`,
`exitNotified := false`. -/
structure ChargingUser where
  id : Option Nat
  name : String
  status : String
  startTime : ℚ
  outlet : Nat
  exitNotified : Bool
deriving DecidableEq, Repr

/-- An on-hold-track record as built by `getChargePointStationQueueDetail`
(src/index.js lines 260-266): `id := subscriberId`, `name := subscriberEvatarName`,
`status := portQueueSubState`, `outlet := outletNumber`, `waitingNotified := false`. -/
structure OnHoldUser where
  id : Option Nat
  name : String
  status : String
  outlet : Nat
  waitingNotified : Bool
deriving DecidableEq, Repr

/-- A raw charging entry of the remote response body
(`data.chargingUsers[i]`), before the mapping in
`getChargePointStationQueueDetail`.  `subscriberId` may be `undefined`. -/
structure RawChargingUser where
  subscriberId : Option Nat
  subscriberEvatarName : String
  subscriberQueueState : String
  pluginEpochTime : ℚ
  outletNumber : Nat
deriving DecidableEq, Repr

/-- A raw on-hold entry of the remote response body (`data.onHoldUsers[i]`). -/
structure RawOnHoldUser where
  subscriberId : Option Nat
  subscriberEvatarName : String
  portQueueSubState : String
  outletNumber : Nat
deriving DecidableEq, Repr

/-- The relevant fields of the remote response body
(`response.data.response.message`). -/
structure RawStationData where
  maxChargingTime : ℚ
  currTime : ℚ
  chargingUsers : List RawChargingUser
  onHoldUsers : List RawOnHoldUser
deriving DecidableEq, Repr

/-- The value returned by `getChargePointStationQueueDetail`
(src/index.js lines 249-268). -/
structure Snapshot where
  maxChargingTime : ℚ
  currTime : ℚ
  chargingUsers : List ChargingUser
  onHoldUsers : List OnHoldUser
deriving DecidableEq, Repr

/-- The mapping applied to one raw charging entry (src/index.js lines 252-258). -/
def mapChargingUser (u : RawChargingUser) : ChargingUser :=
  { id := u.subscriberId
    name := u.subscriberEvatarName
    status := u.subscriberQueueState
    startTime := u.pluginEpochTime / 1000
    outlet := u.outletNumber
    exitNotified := false }

/-- The mapping applied to one raw on-hold entry (src/index.js lines 260-266). -/
def mapOnHoldUser (u : RawOnHoldUser) : OnHoldUser :=
  { id := u.subscriberId
    name := u.subscriberEvatarName
    status := u.portQueueSubState
    outlet := u.outletNumber
    waitingNotified := false }

/-- The pure body of `getChargePointStationQueueDetail` (src/index.js lines
249-268): maps the raw remote entries, filters charging entries with
`user.id !== undefined`, and applies no filter to on-hold entries. -/
def getChargePointStationQueueDetail (data : RawStationData) : Snapshot :=
  { maxChargingTime := data.maxChargingTime
    currTime := data.currTime
    chargingUsers :=
      (data.chargingUsers.map mapChargingUser).filter (fun user => user.id ≠ none)
    onHoldUsers := data.onHoldUsers.map mapOnHoldUser }

/-- A dispatched Slack message, abstracted to the data interpolated into its
text: `sessionStarted` carries the occupant name and the computed end-time
value `startTime + maxChargingTime` (src/index.js lines 322-328); `almostUp`
and `yourTurn` carry the resolved recipient id `slackUserIds[name]`
(lines 337 and 355). -/
inductive Notification where
  | sessionStarted (name : String) (endTime : ℚ)
  | almostUp (recipient : String)
  | yourTurn (recipient : String)
deriving DecidableEq, Repr

/-- Whether an event is a "session started" message. -/
def Notification.isSessionStarted : Notification → Bool
  | .sessionStarted _ _ => true
  | .almostUp _ => false
  | .yourTurn _ => false

/-- Whether an event is an "almost up" message. -/
def Notification.isAlmostUp : Notification → Bool
  | .sessionStarted _ _ => false
  | .almostUp _ => true
  | .yourTurn _ => false

/-- Whether an event is a "your turn" message. -/
def Notification.isYourTurn : Notification → Bool
  | .sessionStarted _ _ => false
  | .almostUp _ => false
  | .yourTurn _ => true

/-- The per-outlet charging map (the module-level `chargingUsers` object,
src/index.js line 205); `none` is the initial `null` / an absent key. -/
def ChargingMap : Type := Nat → Option ChargingUser

/-- The per-outlet on-hold map (the module-level `onHoldUsers` object,
src/index.js line 206). -/
def OnHoldMap : Type := Nat → Option OnHoldUser

/-- `chargingUsers[outlet] = user` (src/index.js line 318). -/
def setCharging (st : ChargingMap) (outlet : Nat) (u : ChargingUser) : ChargingMap :=
  fun j => if j = outlet then some u else st j

/-- `onHoldUsers[outlet] = user` (src/index.js line 348). -/
def setOnHold (st : OnHoldMap) (outlet : Nat) (u : OnHoldUser) : OnHoldMap :=
  fun j => if j = outlet then some u else st j

/-- `!chargingUsers[outlet] || chargingUsers[outlet].id !== user.id`
(src/index.js line 317). -/
def chargingOccupantChanged (st : ChargingMap) (user : ChargingUser) : Bool :=
  match st user.outlet with
  | none => true
  | some cur => decide (cur.id ≠ user.id)

/-- `!onHoldUsers[outlet] || onHoldUsers[outlet].id !== user.id`
(src/index.js line 347). -/
def onHoldOccupantChanged (st : OnHoldMap) (user : OnHoldUser) : Bool :=
  match st user.outlet with
  | none => true
  | some cur => decide (cur.id ≠ user.id)

/-- The occupant-update block of the charging track (src/index.js lines
317-330): on a changed occupant, store the new record and, unless `firstRun`
is truthy, emit the "session started" message with the computed end time. -/
def updateChargingPhase (firstRun : Bool) (maxCT : ℚ) (st : ChargingMap)
    (user : ChargingUser) : ChargingMap × List Notification :=
  if chargingOccupantChanged st user then
    (setCharging st user.outlet user,
     if firstRun then []
     else [Notification.sessionStarted user.name (user.startTime + maxCT)])
  else (st, [])

/-- The "almost up" block of the charging track (src/index.js lines 332-339):
reads the stored occupant at `outlet` after the update block, checks
`status === 'CHARGING'`, `slackUserIds[name] !== undefined`,
`startTime + maxChargingTime <= currTime + exitWarningOffset`, and
`!exitNotified`; when all hold, emits the message and sets `exitNotified`. -/
def almostUpPhase (slackUserIds : String → Option String) (maxCT currT warnOff : ℚ)
    (st : ChargingMap) (outlet : Nat) : ChargingMap × List Notification :=
  match st outlet with
  | none => (st, [])
  | some cur =>
    if cur.status = "CHARGING" then
      match slackUserIds cur.name with
      | some rid =>
        if cur.startTime + maxCT ≤ currT + warnOff ∧ cur.exitNotified = false then
          (setCharging st outlet { cur with exitNotified := true },
           [Notification.almostUp rid])
        else (st, [])
      | none => (st, [])
    else (st, [])

/-- One iteration of the `stationQueueDetail.chargingUsers.forEach` body
(src/index.js lines 313-340). -/
def processChargingUser (slackUserIds : String → Option String) (firstRun : Bool)
    (maxCT currT warnOff : ℚ) (st : ChargingMap) (user : ChargingUser) :
    ChargingMap × List Notification :=
  let r1 := updateChargingPhase firstRun maxCT st user
  let r2 := almostUpPhase slackUserIds maxCT currT warnOff r1.1 user.outlet
  (r2.1, r1.2 ++ r2.2)

/-- The occupant-update block of the on-hold track (src/index.js lines
347-349): on a changed occupant, store the new record (no message). -/
def updateOnHoldPhase (st : OnHoldMap) (user : OnHoldUser) : OnHoldMap :=
  if onHoldOccupantChanged st user then setOnHold st user.outlet user else st

/-- The "your turn" block of the on-hold track (src/index.js lines 351-357):
checks `status === 'ACCEPT_PENDING'`, `slackUserIds[name] !== undefined`,
and `!waitingNotified`; when all hold, emits the message and sets
`waitingNotified`. -/
def yourTurnPhase (slackUserIds : String → Option String) (st : OnHoldMap)
    (outlet : Nat) : OnHoldMap × List Notification :=
  match st outlet with
  | none => (st, [])
  | some cur =>
    if cur.status = "ACCEPT_PENDING" then
      match slackUserIds cur.name with
      | some rid =>
        if cur.waitingNotified = false then
          (setOnHold st outlet { cur with waitingNotified := true },
           [Notification.yourTurn rid])
        else (st, [])
      | none => (st, [])
    else (st, [])

/-- One iteration of the `stationQueueDetail.onHoldUsers.forEach` body
(src/index.js lines 343-358). -/
def processOnHoldUser (slackUserIds : String → Option String) (st : OnHoldMap)
    (user : OnHoldUser) : OnHoldMap × List Notification :=
  let st1 := updateOnHoldPhase st user
  let r2 := yourTurnPhase slackUserIds st1 user.outlet
  (r2.1, r2.2)

/-- The full `chargingUsers.forEach` loop (src/index.js lines 313-340),
threading the map and accumulating emitted messages in order. -/
def processChargingList (slackUserIds : String → Option String) (firstRun : Bool)
    (maxCT currT warnOff : ℚ) (st : ChargingMap) :
    List ChargingUser → ChargingMap × List Notification
  | [] => (st, [])
  | user :: rest =>
    let r1 := processChargingUser slackUserIds firstRun maxCT currT warnOff st user
    let r2 := processChargingList slackUserIds firstRun maxCT currT warnOff r1.1 rest
    (r2.1, r1.2 ++ r2.2)

/-- The full `onHoldUsers.forEach` loop (src/index.js lines 343-358). -/
def processOnHoldList (slackUserIds : String → Option String) (st : OnHoldMap) :
    List OnHoldUser → OnHoldMap × List Notification
  | [] => (st, [])
  | user :: rest =>
    let r1 := processOnHoldUser slackUserIds st user
    let r2 := processOnHoldList slackUserIds r1.1 rest
    (r2.1, r1.2 ++ r2.2)

/-- The in-memory monitor state: both per-outlet maps. -/
structure MonitorState where
  charging : ChargingMap
  onHold : OnHoldMap

/-- The diff-and-notify body of `pollChargePoint` after a successful fetch
(src/index.js lines 309-358): processes the charging track then the on-hold
track against the stored maps. -/
def processSnapshot (slackUserIds : String → Option String) (firstRun : Bool)
    (warnOff : ℚ) (snap : Snapshot) (st : MonitorState) :
    MonitorState × List Notification :=
  let rc := processChargingList slackUserIds firstRun snap.maxChargingTime
    snap.currTime warnOff st.charging snap.chargingUsers
  let rh := processOnHoldList slackUserIds st.onHold snap.onHoldUsers
  ({ charging := rc.1, onHold := rh.1 }, rc.2 ++ rh.2)

/-- One snapshot's observation of a fixed outlet on the charging track: the
record reported for that outlet together with that snapshot's
`maxChargingTime` and `currTime`, the configured warning offset, and the
`firstRun` flag of the invocation that processed it. -/
structure ChargingObservation where
  user : ChargingUser
  maxCT : ℚ
  currT : ℚ
  warnOff : ℚ
  firstRun : Bool

/-- Processing of a sequence of consecutive snapshots, restricted to the
charging-track observations of one outlet: each snapshot contributes one
`processChargingUser` step with its own `maxChargingTime` / `currTime`.
Steps at an outlet read and write only that outlet's slot, so this is the
per-outlet restriction of running `pollChargePoint` on each snapshot in
turn. -/
def runChargingObservations (slackUserIds : String → Option String)
    (st : ChargingMap) : List ChargingObservation → ChargingMap × List Notification
  | [] => (st, [])
  | o :: rest =>
    let r1 := processChargingUser slackUserIds o.firstRun o.maxCT o.currT o.warnOff st o.user
    let r2 := runChargingObservations slackUserIds r1.1 rest
    (r2.1, r1.2 ++ r2.2)

/-- `const sundayDayOfWeek = 1` (src/index.js line 197).  Under JavaScript
`Date.prototype.getDay` numbering Sunday is 0 and Monday is 1, so this value
denotes Monday. -/
def sundayDayOfWeek : Nat := 1

/-- `const saturdayDayOfWeek = 6` (src/index.js line 198). -/
def saturdayDayOfWeek : Nat := 6

/-- Default `CPN_WORKING_START_TIME` (src/index.js line 194). -/
def workingStarTime : Nat := 8

/-- Default `CPN_WORKING_STOP_TIME` (src/index.js line 195). -/
def workingStopTime : Nat := 18

/-- Default `CPN_WARNING_OFFSET` (src/index.js line 193). -/
def exitWarningOffset : ℚ := 5 * 60

/-- What a `pollChargePoint` invocation decides before touching the network. -/
inductive PollDecision where
  | weekendSleep
  | afterHoursSleep
  | poll
deriving DecidableEq, Repr

/-- The gating check at the top of `pollChargePoint` (src/index.js lines
292-299): `day` is `dateNow.getDay()` (JavaScript numbering: 0 is Sunday, 6 is
Saturday) and `hour` is `dateNow.getHours()`.  Skips to the weekend sleep when
`day === sundayDayOfWeek || day === saturdayDayOfWeek`, else to the
after-hours sleep when `hour < workingStarTime || hour > workingStopTime`,
else proceeds to poll. -/
def gateDecision (startT stopT day hour : Nat) : PollDecision :=
  if day = sundayDayOfWeek ∨ day = saturdayDayOfWeek then .weekendSleep
  else if hour < startT ∨ hour > stopT then .afterHoursSleep
  else .poll

/-- Modelled from the spec: the set of weekend days under JavaScript
`Date.prototype.getDay` numbering, where Sunday is day 0 and Saturday is
day 6. -/
def isWeekendDay (day : Nat) : Bool :=
  day = 0 ∨ day = 6

/-- The timer a `pollChargePoint` invocation arms for the next invocation. -/
inductive NextTimer where
  | weekendTimer
  | afterHoursTimer
  | regularTimer
deriving DecidableEq, Repr

/-- The observable outcome of one invocation of `pollChargePoint`:
the monitor state on return, the messages dispatched, which timer (if any)
was armed for the next invocation, and whether the async function rejected
(an `await` threw and control left the function before reaching the trailing
`setTimeout`). -/
structure CycleOutcome where
  state : MonitorState
  events : List Notification
  nextTimer : Option NextTimer
  raised : Bool

/-- One invocation of `pollChargePoint` (src/index.js lines 290-362).
`day`/`hour` are the wall clock read at entry; `authOk` is whether the
session-refresh step (lines 302-305) completes without rejection (vacuously
true when no refresh is due); `fetchResult` is the body returned by the
snapshot fetch (line 308), `none` when that await rejects.  On the weekend or
after-hours branch the function arms the corresponding timer and returns
(lines 293-299).  A rejection in auth or fetch propagates out of the async
function: the loop bodies and the trailing `setTimeout(pollChargePoint,
pollingDelay)` (line 361) never run, so no next invocation is armed.  On
success the two tracks are processed and the regular timer is armed. -/
def runPollCycle (slackUserIds : String → Option String)
    (startT stopT day hour : Nat) (warnOff : ℚ)
    (authOk : Bool) (fetchResult : Option RawStationData)
    (firstRun : Bool) (st : MonitorState) : CycleOutcome :=
  match gateDecision startT stopT day hour with
  | .weekendSleep => ⟨st, [], some .weekendTimer, false⟩
  | .afterHoursSleep => ⟨st, [], some .afterHoursTimer, false⟩
  | .poll =>
    if authOk = false then ⟨st, [], none, true⟩
    else
      match fetchResult with
      | none => ⟨st, [], none, true⟩
      | some raw =>
        let snap := getChargePointStationQueueDetail raw
        let r := processSnapshot slackUserIds firstRun warnOff snap st
        ⟨r.1, r.2, some .regularTimer, false⟩

/-- How an invocation of `pollChargePoint` comes about: the startup call
`pollChargePoint(true)` (src/index.js line 377), or one of the three
`setTimeout(pollChargePoint, …)` callbacks (lines 294, 297, 361). -/
inductive CallSource where
  | startup
  | weekendTimer
  | afterHoursTimer
  | regularTimer
deriving DecidableEq, Repr

/-- The `firstRun` argument each call site passes.  The startup call passes
`true` (line 377); every `setTimeout` callback invokes `pollChargePoint`
with no arguments, so `firstRun` is `undefined`, which is falsy (lines 294,
297, 361) — embedded as `false`. -/
def firstRunArgument : CallSource → Bool
  | .startup => true
  | .weekendTimer => false
  | .afterHoursTimer => false
  | .regularTimer => false

/-- Whether a rejection of the invocation is handled: only the startup call
chains a `.catch` that logs the error (src/index.js lines 381-383); the
promises returned by the `setTimeout`-invoked calls are discarded, so their
rejections are unhandled. -/
def hasRejectionHandler : CallSource → Bool
  | .startup => true
  | .weekendTimer => false
  | .afterHoursTimer => false
  | .regularTimer => false

/-! ### Helper lemmas -/

lemma filter_map_charging (l : List RawChargingUser) :
    (l.map mapChargingUser).filter (fun user => user.id ≠ none)
      = (l.filter fun u => u.subscriberId ≠ none).map mapChargingUser := by
  rw [List.filter_map]
  rfl

/-- Exhaustive description of the "almost up" block: either it leaves the map
unchanged and emits nothing, or the stored occupant satisfies every guard, the
message is emitted once, and the flag is set. -/
lemma almostUpPhase_cases (slackUserIds : String → Option String)
    (maxCT currT warnOff : ℚ) (st : ChargingMap) (outlet : Nat) :
    almostUpPhase slackUserIds maxCT currT warnOff st outlet = (st, []) ∨
    ∃ cur rid, st outlet = some cur ∧ cur.status = "CHARGING" ∧
      slackUserIds cur.name = some rid ∧
      cur.startTime + maxCT ≤ currT + warnOff ∧ cur.exitNotified = false ∧
      almostUpPhase slackUserIds maxCT currT warnOff st outlet
        = (setCharging st outlet { cur with exitNotified := true },
           [Notification.almostUp rid]) := by
  unfold almostUpPhase
  cases hst : st outlet with
  | none => exact Or.inl rfl
  | some cur =>
    dsimp only
    by_cases hs : cur.status = "CHARGING"
    · rw [if_pos hs]
      cases hname : slackUserIds cur.name with
      | none => exact Or.inl rfl
      | some rid =>
        dsimp only
        by_cases hc : cur.startTime + maxCT ≤ currT + warnOff ∧ cur.exitNotified = false
        · rw [if_pos hc]
          exact Or.inr ⟨cur, rid, rfl, hs, hname, hc.1, hc.2, rfl⟩
        · rw [if_neg hc]
          exact Or.inl rfl
    · rw [if_neg hs]
      exact Or.inl rfl

/-- Exhaustive description of the "your turn" block. -/
lemma yourTurnPhase_cases (slackUserIds : String → Option String)
    (st : OnHoldMap) (outlet : Nat) :
    yourTurnPhase slackUserIds st outlet = (st, []) ∨
    ∃ cur rid, st outlet = some cur ∧ cur.status = "ACCEPT_PENDING" ∧
      slackUserIds cur.name = some rid ∧ cur.waitingNotified = false ∧
      yourTurnPhase slackUserIds st outlet
        = (setOnHold st outlet { cur with waitingNotified := true },
           [Notification.yourTurn rid]) := by
  unfold yourTurnPhase
  cases hst : st outlet with
  | none => exact Or.inl rfl
  | some cur =>
    dsimp only
    by_cases hs : cur.status = "ACCEPT_PENDING"
    · rw [if_pos hs]
      cases hname : slackUserIds cur.name with
      | none => exact Or.inl rfl
      | some rid =>
        dsimp only
        by_cases hw : cur.waitingNotified = false
        · rw [if_pos hw]
          exact Or.inr ⟨cur, rid, rfl, hs, hname, hw, rfl⟩
        · rw [if_neg hw]
          exact Or.inl rfl
    · rw [if_neg hs]
      exact Or.inl rfl

lemma chargingOccupantChanged_eq_false {st : ChargingMap} {user : ChargingUser}
    (cur : ChargingUser) (hst : st user.outlet = some cur) (hid : cur.id = user.id) :
    chargingOccupantChanged st user = false := by
  unfold chargingOccupantChanged
  rw [hst]
  simp [hid]

lemma onHoldOccupantChanged_eq_false {st : OnHoldMap} {user : OnHoldUser}
    (cur : OnHoldUser) (hst : st user.outlet = some cur) (hid : cur.id = user.id) :
    onHoldOccupantChanged st user = false := by
  unfold onHoldOccupantChanged
  rw [hst]
  simp [hid]

lemma updateChargingPhase_same (firstRun : Bool) (maxCT : ℚ) {st : ChargingMap}
    {user : ChargingUser} (h : chargingOccupantChanged st user = false) :
    updateChargingPhase firstRun maxCT st user = (st, []) := by
  unfold updateChargingPhase
  rw [h]
  simp

lemma updateChargingPhase_changed (firstRun : Bool) (maxCT : ℚ) {st : ChargingMap}
    {user : ChargingUser} (h : chargingOccupantChanged st user = true) :
    updateChargingPhase firstRun maxCT st user
      = (setCharging st user.outlet user,
         if firstRun then []
         else [Notification.sessionStarted user.name (user.startTime + maxCT)]) := by
  unfold updateChargingPhase
  rw [h]
  simp

lemma setCharging_eval_self (st : ChargingMap) (outlet : Nat) (u : ChargingUser) :
    setCharging st outlet u outlet = some u := by
  unfold setCharging
  simp

lemma setOnHold_eval_self (st : OnHoldMap) (outlet : Nat) (u : OnHoldUser) :
    setOnHold st outlet u outlet = some u := by
  unfold setOnHold
  simp

lemma setCharging_setCharging (st : ChargingMap) (outlet : Nat)
    (u v : ChargingUser) :
    setCharging (setCharging st outlet u) outlet v = setCharging st outlet v := by
  funext j
  unfold setCharging
  by_cases h : j = outlet <;> simp [h]

lemma setOnHold_setOnHold (st : OnHoldMap) (outlet : Nat) (u v : OnHoldUser) :
    setOnHold (setOnHold st outlet u) outlet v = setOnHold st outlet v := by
  funext j
  unfold setOnHold
  by_cases h : j = outlet <;> simp [h]

lemma chargingOccupantChanged_false_elim {st : ChargingMap} {user : ChargingUser}
    (h : chargingOccupantChanged st user = false) :
    ∃ cur, st user.outlet = some cur ∧ cur.id = user.id := by
  unfold chargingOccupantChanged at h
  cases hst : st user.outlet with
  | none => rw [hst] at h; cases h
  | some cur =>
    rw [hst] at h
    simp only [decide_eq_false_iff_not, not_not] at h
    exact ⟨cur, rfl, h⟩

lemma onHoldOccupantChanged_false_elim {st : OnHoldMap} {user : OnHoldUser}
    (h : onHoldOccupantChanged st user = false) :
    ∃ cur, st user.outlet = some cur ∧ cur.id = user.id := by
  unfold onHoldOccupantChanged at h
  cases hst : st user.outlet with
  | none => rw [hst] at h; cases h
  | some cur =>
    rw [hst] at h
    simp only [decide_eq_false_iff_not, not_not] at h
    exact ⟨cur, rfl, h⟩

lemma updateOnHoldPhase_same {st : OnHoldMap} {user : OnHoldUser}
    (h : onHoldOccupantChanged st user = false) :
    updateOnHoldPhase st user = st := by
  unfold updateOnHoldPhase
  rw [h]
  simp

lemma updateOnHoldPhase_changed {st : OnHoldMap} {user : OnHoldUser}
    (h : onHoldOccupantChanged st user = true) :
    updateOnHoldPhase st user = setOnHold st user.outlet user := by
  unfold updateOnHoldPhase
  rw [h]
  simp

/-- A same-occupant charging step (stored occupant with the observed id):
either a no-op with no messages, or the single "almost up" firing that sets
the flag. -/
lemma processChargingUser_same_id (slackUserIds : String → Option String)
    (firstRun : Bool) (maxCT currT warnOff : ℚ) {st : ChargingMap}
    {user : ChargingUser} (cur : ChargingUser)
    (hst : st user.outlet = some cur) (hid : cur.id = user.id) :
    processChargingUser slackUserIds firstRun maxCT currT warnOff st user
      = (st, []) ∨
    ∃ rid, cur.status = "CHARGING" ∧ slackUserIds cur.name = some rid ∧
      cur.startTime + maxCT ≤ currT + warnOff ∧ cur.exitNotified = false ∧
      processChargingUser slackUserIds firstRun maxCT currT warnOff st user
        = (setCharging st user.outlet { cur with exitNotified := true },
           [Notification.almostUp rid]) := by
  have hch := chargingOccupantChanged_eq_false cur hst hid
  unfold processChargingUser
  rw [updateChargingPhase_same firstRun maxCT hch]
  dsimp only
  rcases almostUpPhase_cases slackUserIds maxCT currT warnOff st user.outlet with
    h | ⟨cur2, rid, hst2, hs, hname, hle, hflag, h⟩
  · rw [h]
    exact Or.inl rfl
  · rw [hst] at hst2
    cases hst2
    rw [h]
    exact Or.inr ⟨rid, hs, hname, hle, hflag, rfl⟩

/-- A changed-occupant charging step: the new record is stored, the "session
started" message is emitted unless `firstRun`, and the "almost up" check then
applies to the freshly stored record. -/
lemma processChargingUser_changed (slackUserIds : String → Option String)
    (firstRun : Bool) (maxCT currT warnOff : ℚ) {st : ChargingMap}
    {user : ChargingUser} (h : chargingOccupantChanged st user = true) :
    processChargingUser slackUserIds firstRun maxCT currT warnOff st user
      = (setCharging st user.outlet user,
         if firstRun then []
         else [Notification.sessionStarted user.name (user.startTime + maxCT)]) ∨
    ∃ rid, user.status = "CHARGING" ∧ slackUserIds user.name = some rid ∧
      user.startTime + maxCT ≤ currT + warnOff ∧ user.exitNotified = false ∧
      processChargingUser slackUserIds firstRun maxCT currT warnOff st user
        = (setCharging st user.outlet { user with exitNotified := true },
           (if firstRun then []
            else [Notification.sessionStarted user.name (user.startTime + maxCT)])
             ++ [Notification.almostUp rid]) := by
  unfold processChargingUser
  rw [updateChargingPhase_changed firstRun maxCT h]
  dsimp only
  rcases almostUpPhase_cases slackUserIds maxCT currT warnOff
      (setCharging st user.outlet user) user.outlet with
    h2 | ⟨cur2, rid, hst2, hs, hname, hle, hflag, h2⟩
  · rw [h2]
    simp
  · rw [setCharging_eval_self] at hst2
    cases hst2
    rw [h2, setCharging_setCharging]
    exact Or.inr ⟨rid, hs, hname, hle, hflag, rfl⟩

/-- A same-occupant on-hold step: either a no-op with no messages, or the
single "your turn" firing that sets the flag. -/
lemma processOnHoldUser_same_id (slackUserIds : String → Option String)
    {st : OnHoldMap} {user : OnHoldUser} (cur : OnHoldUser)
    (hst : st user.outlet = some cur) (hid : cur.id = user.id) :
    processOnHoldUser slackUserIds st user = (st, []) ∨
    ∃ rid, cur.status = "ACCEPT_PENDING" ∧ slackUserIds cur.name = some rid ∧
      cur.waitingNotified = false ∧
      processOnHoldUser slackUserIds st user
        = (setOnHold st user.outlet { cur with waitingNotified := true },
           [Notification.yourTurn rid]) := by
  have hch := onHoldOccupantChanged_eq_false cur hst hid
  unfold processOnHoldUser
  rw [updateOnHoldPhase_same hch]
  dsimp only
  rcases yourTurnPhase_cases slackUserIds st user.outlet with
    h | ⟨cur2, rid, hst2, hs, hname, hflag, h⟩
  · rw [h]
    exact Or.inl rfl
  · rw [hst] at hst2
    cases hst2
    rw [h]
    exact Or.inr ⟨rid, hs, hname, hflag, rfl⟩

/-- A changed-occupant on-hold step: the new record is stored silently and the
"your turn" check then applies to it. -/
lemma processOnHoldUser_changed (slackUserIds : String → Option String)
    {st : OnHoldMap} {user : OnHoldUser}
    (h : onHoldOccupantChanged st user = true) :
    processOnHoldUser slackUserIds st user
      = (setOnHold st user.outlet user, []) ∨
    ∃ rid, user.status = "ACCEPT_PENDING" ∧ slackUserIds user.name = some rid ∧
      user.waitingNotified = false ∧
      processOnHoldUser slackUserIds st user
        = (setOnHold st user.outlet { user with waitingNotified := true },
           [Notification.yourTurn rid]) := by
  unfold processOnHoldUser
  rw [updateOnHoldPhase_changed h]
  dsimp only
  rcases yourTurnPhase_cases slackUserIds (setOnHold st user.outlet user)
      user.outlet with h2 | ⟨cur2, rid, hst2, hs, hname, hflag, h2⟩
  · rw [h2]
    exact Or.inl rfl
  · rw [setOnHold_eval_self] at hst2
    cases hst2
    rw [h2, setOnHold_setOnHold]
    exact Or.inr ⟨rid, hs, hname, hflag, rfl⟩

/-- While the stored charging occupant at outlet `k` already has the observed
id, further observations of that outlet with the same id emit no "session
started" message at all, and at most one "almost up" message — none once
`exitNotified` is set. -/
lemma runChargingObservations_held (slackUserIds : String → Option String)
    (k : Nat) (i : Option Nat) :
    ∀ (obs : List ChargingObservation) (st : ChargingMap) (cur : ChargingUser),
      st k = some cur → cur.id = i →
      (∀ o ∈ obs, o.user.outlet = k ∧ o.user.id = i) →
      (runChargingObservations slackUserIds st obs).2.countP
          (fun e => e.isSessionStarted) = 0 ∧
      (runChargingObservations slackUserIds st obs).2.countP
          (fun e => e.isAlmostUp) ≤ (if cur.exitNotified then 0 else 1) := by
  intro obs
  induction obs with
  | nil =>
    intro st cur hst hid hobs
    simp [runChargingObservations, List.countP_nil]
  | cons o rest ih =>
    intro st cur hst hid hobs
    have ho := hobs o (List.mem_cons_self o rest)
    have hrest : ∀ o' ∈ rest, o'.user.outlet = k ∧ o'.user.id = i :=
      fun o' h => hobs o' (List.mem_cons_of_mem _ h)
    have hst' : st o.user.outlet = some cur := by rw [ho.1]; exact hst
    have hid' : cur.id = o.user.id := by rw [ho.2, hid]
    rcases processChargingUser_same_id slackUserIds o.firstRun o.maxCT o.currT
        o.warnOff cur hst' hid' with h | ⟨rid, hs, hname, hle, hflag, h⟩
    · have htail := ih st cur hst hid hrest
      simp only [runChargingObservations, h, List.nil_append]
      exact htail
    · have hst1 : setCharging st o.user.outlet { cur with exitNotified := true } k
          = some { cur with exitNotified := true } := by
        rw [ho.1]
        exact setCharging_eval_self st k _
      have htail := ih (setCharging st o.user.outlet { cur with exitNotified := true })
        { cur with exitNotified := true } hst1 hid hrest
      simp only [runChargingObservations, h, List.countP_append]
      constructor
      · rw [htail.1]
        simp [List.countP_cons, List.countP_nil, Notification.isSessionStarted]
      · have h2 : List.countP (fun e => e.isAlmostUp)
            (runChargingObservations slackUserIds
              (setCharging st o.user.outlet { cur with exitNotified := true })
              rest).2 = 0 := Nat.le_zero.mp (by simpa using htail.2)
        have h1 : List.countP (fun e => e.isAlmostUp) [Notification.almostUp rid]
            = 1 := by
          simp [List.countP_cons, List.countP_nil, Notification.isAlmostUp]
        have hbudget : (if cur.exitNotified = true then 0 else 1) = 1 := by
          rw [hflag]
          simp
        rw [hbudget]
        omega

/-- While the stored on-hold occupant at outlet `k` already has the observed
id, further observations of that outlet with the same id emit at most one
"your turn" message — none once `waitingNotified` is set. -/
lemma processOnHoldList_held (slackUserIds : String → Option String)
    (k : Nat) (i : Option Nat) :
    ∀ (users : List OnHoldUser) (st : OnHoldMap) (cur : OnHoldUser),
      st k = some cur → cur.id = i →
      (∀ u ∈ users, u.outlet = k ∧ u.id = i) →
      (processOnHoldList slackUserIds st users).2.countP
          (fun e => e.isYourTurn) ≤ (if cur.waitingNotified then 0 else 1) := by
  intro users
  induction users with
  | nil =>
    intro st cur hst hid hobs
    simp [processOnHoldList, List.countP_nil]
  | cons u rest ih =>
    intro st cur hst hid hobs
    have ho := hobs u (List.mem_cons_self u rest)
    have hrest : ∀ u' ∈ rest, u'.outlet = k ∧ u'.id = i :=
      fun u' h => hobs u' (List.mem_cons_of_mem _ h)
    have hst' : st u.outlet = some cur := by rw [ho.1]; exact hst
    have hid' : cur.id = u.id := by rw [ho.2, hid]
    rcases processOnHoldUser_same_id slackUserIds cur hst' hid' with
      h | ⟨rid, hs, hname, hflag, h⟩
    · have htail := ih st cur hst hid hrest
      simp only [processOnHoldList, h, List.nil_append]
      exact htail
    · have hst1 : setOnHold st u.outlet { cur with waitingNotified := true } k
          = some { cur with waitingNotified := true } := by
        rw [ho.1]
        exact setOnHold_eval_self st k _
      have htail := ih (setOnHold st u.outlet { cur with waitingNotified := true })
        { cur with waitingNotified := true } hst1 hid hrest
      simp only [processOnHoldList, h, List.countP_append]
      have h2 : List.countP (fun e => e.isYourTurn)
          (processOnHoldList slackUserIds
            (setOnHold st u.outlet { cur with waitingNotified := true })
            rest).2 = 0 := Nat.le_zero.mp (by simpa using htail)
      have h1 : List.countP (fun e => e.isYourTurn) [Notification.yourTurn rid]
          = 1 := by
        simp [List.countP_cons, List.countP_nil, Notification.isYourTurn]
      have hbudget : (if cur.waitingNotified = true then 0 else 1) = 1 := by
        rw [hflag]
        simp
      rw [hbudget]
      omega

/-! ### Claim theorems -/

/-- The two charging-track count bounds of C1, proven for a list of
observations of outlet `k` all carrying the same id `i`. -/
lemma runChargingObservations_counts (slackUserIds : String → Option String)
    (k : Nat) (i : Option Nat) (obs : List ChargingObservation) (stc : ChargingMap)
    (hobs : ∀ o ∈ obs, o.user.outlet = k ∧ o.user.id = i) :
    (runChargingObservations slackUserIds stc obs).2.countP
        (fun e => e.isSessionStarted) ≤ 1 ∧
    (runChargingObservations slackUserIds stc obs).2.countP
        (fun e => e.isAlmostUp) ≤ 1 := by
  cases obs with
  | nil => simp [runChargingObservations, List.countP_nil]
  | cons o rest =>
    have ho := hobs o (List.mem_cons_self o rest)
    have hrest : ∀ o' ∈ rest, o'.user.outlet = k ∧ o'.user.id = i :=
      fun o' h => hobs o' (List.mem_cons_of_mem _ h)
    cases hch : chargingOccupantChanged stc o.user with
    | false =>
      obtain ⟨cur, hst, hid⟩ := chargingOccupantChanged_false_elim hch
      have hidi : cur.id = i := hid.trans ho.2
      have h := runChargingObservations_held slackUserIds k i (o :: rest)
        stc cur (ho.1 ▸ hst) hidi hobs
      refine ⟨h.1.le.trans (by omega), h.2.trans ?_⟩
      split <;> omega
    | true =>
      rcases processChargingUser_changed slackUserIds o.firstRun o.maxCT
          o.currT o.warnOff hch with h | ⟨rid, hs, hname, hle, hflag, h⟩
      · have hst1 : setCharging stc o.user.outlet o.user k = some o.user := by
          rw [ho.1]
          exact setCharging_eval_self stc k o.user
        have htail := runChargingObservations_held slackUserIds k i rest
          (setCharging stc o.user.outlet o.user) o.user hst1 ho.2 hrest
        have hbudget : (if o.user.exitNotified = true then 0 else 1) ≤ 1 := by
          split <;> omega
        have htail2 := htail.2.trans hbudget
        simp only [runChargingObservations, h, List.countP_append, htail.1]
        constructor
        · cases o.firstRun <;>
            simp [List.countP_cons, List.countP_nil, Notification.isSessionStarted]
        · have hss : List.countP (fun e => e.isAlmostUp)
              (if o.firstRun = true then []
               else [Notification.sessionStarted o.user.name
                 (o.user.startTime + o.maxCT)]) = 0 := by
            cases o.firstRun <;>
              simp [List.countP_cons, List.countP_nil, Notification.isAlmostUp]
          rw [hss]
          omega
      · have hst1 : setCharging stc o.user.outlet
            { o.user with exitNotified := true } k
            = some { o.user with exitNotified := true } := by
          rw [ho.1]
          exact setCharging_eval_self stc k _
        have htail := runChargingObservations_held slackUserIds k i rest
          (setCharging stc o.user.outlet { o.user with exitNotified := true })
          { o.user with exitNotified := true } hst1 ho.2 hrest
        have h2 : List.countP (fun e => e.isAlmostUp)
            (runChargingObservations slackUserIds
              (setCharging stc o.user.outlet { o.user with exitNotified := true })
              rest).2 = 0 := Nat.le_zero.mp (by simpa using htail.2)
        simp only [runChargingObservations, h, List.countP_append, htail.1, h2]
        constructor
        · cases o.firstRun <;>
            simp [List.countP_cons, List.countP_nil, Notification.isSessionStarted,
              Notification.isAlmostUp]
        · cases o.firstRun <;>
            simp [List.countP_cons, List.countP_nil, Notification.isSessionStarted,
              Notification.isAlmostUp]

/-- The on-hold-track count bound of C1. -/
lemma processOnHoldList_count (slackUserIds : String → Option String)
    (k : Nat) (i : Option Nat) (holdUsers : List OnHoldUser) (sth : OnHoldMap)
    (hholds : ∀ u ∈ holdUsers, u.outlet = k ∧ u.id = i) :
    (processOnHoldList slackUserIds sth holdUsers).2.countP
        (fun e => e.isYourTurn) ≤ 1 := by
  cases holdUsers with
  | nil => simp [processOnHoldList, List.countP_nil]
  | cons u rest =>
    have ho := hholds u (List.mem_cons_self u rest)
    have hrest : ∀ u' ∈ rest, u'.outlet = k ∧ u'.id = i :=
      fun u' h => hholds u' (List.mem_cons_of_mem _ h)
    cases hch : onHoldOccupantChanged sth u with
    | false =>
      obtain ⟨cur, hst, hid⟩ := onHoldOccupantChanged_false_elim hch
      have hidi : cur.id = i := hid.trans ho.2
      have h := processOnHoldList_held slackUserIds k i (u :: rest)
        sth cur (ho.1 ▸ hst) hidi hholds
      refine h.trans ?_
      split <;> omega
    | true =>
      rcases processOnHoldUser_changed slackUserIds hch with
        h | ⟨rid, hs, hname, hflag, h⟩
      · have hst1 : setOnHold sth u.outlet u k = some u := by
          rw [ho.1]
          exact setOnHold_eval_self sth k u
        have htail := processOnHoldList_held slackUserIds k i rest
          (setOnHold sth u.outlet u) u hst1 ho.2 hrest
        have hbudget : (if u.waitingNotified = true then 0 else 1) ≤ 1 := by
          split <;> omega
        simp only [processOnHoldList, h, List.countP_append, List.countP_nil]
        have := htail.trans hbudget
        omega
      · have hst1 : setOnHold sth u.outlet { u with waitingNotified := true } k
            = some { u with waitingNotified := true } := by
          rw [ho.1]
          exact setOnHold_eval_self sth k _
        have htail := processOnHoldList_held slackUserIds k i rest
          (setOnHold sth u.outlet { u with waitingNotified := true })
          { u with waitingNotified := true } hst1 ho.2 hrest
        have h2 : List.countP (fun e => e.isYourTurn)
            (processOnHoldList slackUserIds
              (setOnHold sth u.outlet { u with waitingNotified := true })
              rest).2 = 0 := Nat.le_zero.mp (by simpa using htail)
        simp only [processOnHoldList, h, List.countP_append, h2]
        simp [List.countP_cons, List.countP_nil, Notification.isYourTurn]

/-! ### Claim theorems -/

/-- C1: for every outlet and every sequence of consecutive snapshots in which
the occupant observed on that outlet keeps the same id, processing those
snapshots emits "session started" at most once, "almost up" at most once, and
"your turn" at most once for that occupancy, even if the "almost up"
threshold condition holds in several of the snapshots. -/
theorem C1_at_most_once_per_occupancy
    (slackUserIds : String → Option String) (k : Nat) (i : Option Nat)
    (obs : List ChargingObservation) (holdUsers : List OnHoldUser)
    (stc : ChargingMap) (sth : OnHoldMap)
    (hobs : ∀ o ∈ obs, o.user.outlet = k ∧ o.user.id = i)
    (hholds : ∀ u ∈ holdUsers, u.outlet = k ∧ u.id = i) :
    (runChargingObservations slackUserIds stc obs).2.countP
        (fun e => e.isSessionStarted) ≤ 1 ∧
    (runChargingObservations slackUserIds stc obs).2.countP
        (fun e => e.isAlmostUp) ≤ 1 ∧
    (processOnHoldList slackUserIds sth holdUsers).2.countP
        (fun e => e.isYourTurn) ≤ 1 :=
  ⟨(runChargingObservations_counts slackUserIds k i obs stc hobs).1,
   (runChargingObservations_counts slackUserIds k i obs stc hobs).2,
   processOnHoldList_count slackUserIds k i holdUsers sth hholds⟩

/-- Witness for C1: a concrete two-snapshot run (same occupant, threshold
satisfied in both snapshots, on-hold occupant pending in both) emits each
message at most once. -/
theorem C1_at_most_once_per_occupancy_witness :
    (runChargingObservations
        (fun n => if n = "farzaddaei" then some "WCMTDDDRV" else none)
        (fun _ => none)
        [⟨⟨some 7, "farzaddaei", "CHARGING", 1000, 1, false⟩, 7200, 7900, 300, false⟩,
         ⟨⟨some 7, "farzaddaei", "CHARGING", 1000, 1, false⟩, 7200, 7960, 300, false⟩]).2.countP
        (fun e => e.isSessionStarted) ≤ 1 ∧
    (runChargingObservations
        (fun n => if n = "farzaddaei" then some "WCMTDDDRV" else none)
        (fun _ => none)
        [⟨⟨some 7, "farzaddaei", "CHARGING", 1000, 1, false⟩, 7200, 7900, 300, false⟩,
         ⟨⟨some 7, "farzaddaei", "CHARGING", 1000, 1, false⟩, 7200, 7960, 300, false⟩]).2.countP
        (fun e => e.isAlmostUp) ≤ 1 ∧
    (processOnHoldList
        (fun n => if n = "farzaddaei" then some "WCMTDDDRV" else none)
        (fun _ => none)
        [⟨some 7, "farzaddaei", "ACCEPT_PENDING", 1, false⟩,
         ⟨some 7, "farzaddaei", "ACCEPT_PENDING", 1, false⟩]).2.countP
        (fun e => e.isYourTurn) ≤ 1 :=
  C1_at_most_once_per_occupancy
    (fun n => if n = "farzaddaei" then some "WCMTDDDRV" else none) 1 (some 7)
    [⟨⟨some 7, "farzaddaei", "CHARGING", 1000, 1, false⟩, 7200, 7900, 300, false⟩,
     ⟨⟨some 7, "farzaddaei", "CHARGING", 1000, 1, false⟩, 7200, 7960, 300, false⟩]
    [⟨some 7, "farzaddaei", "ACCEPT_PENDING", 1, false⟩,
     ⟨some 7, "farzaddaei", "ACCEPT_PENDING", 1, false⟩]
    (fun _ => none) (fun _ => none) (by decide) (by decide)

/-- C2: for a stored charging occupant with status "CHARGING", a name mapped
to recipient `rid`, and `exitNotified = false`, processing a snapshot that
observes the same occupant emits the "almost up" message iff
`startTime + maxChargingTime ≤ currTime + warningOffset`. -/
theorem C2_threshold_boundary (slackUserIds : String → Option String)
    (firstRun : Bool) (maxCT currT warnOff : ℚ) (st : ChargingMap)
    (user cur : ChargingUser) (rid : String)
    (hst : st user.outlet = some cur) (hid : cur.id = user.id)
    (hstatus : cur.status = "CHARGING")
    (hname : slackUserIds cur.name = some rid)
    (hflag : cur.exitNotified = false) :
    Notification.almostUp rid ∈
        (processChargingUser slackUserIds firstRun maxCT currT warnOff st user).2
      ↔ cur.startTime + maxCT ≤ currT + warnOff := by
  have hch := chargingOccupantChanged_eq_false cur hst hid
  unfold processChargingUser
  rw [updateChargingPhase_same firstRun maxCT hch]
  dsimp only
  unfold almostUpPhase
  rw [hst]
  dsimp only
  rw [if_pos hstatus, hname]
  dsimp only
  constructor
  · intro hmem
    by_cases hc : cur.startTime + maxCT ≤ currT + warnOff ∧ cur.exitNotified = false
    · exact hc.1
    · rw [if_neg hc] at hmem
      simp at hmem
  · intro hle
    rw [if_pos ⟨hle, hflag⟩]
    simp

/-- Witness for C2: with `startTime + maxChargingTime = 8200`, the message
fires at `currTime + warningOffset = 8200` (exact equality) and does not fire
at `currTime + warningOffset = 8199` (left side one above the right side). -/
theorem C2_threshold_boundary_witness :
    Notification.almostUp "WCMTDDDRV" ∈
      (processChargingUser
        (fun n => if n = "farzaddaei" then some "WCMTDDDRV" else none) false
        7200 7900 300
        (fun j => if j = 1 then some ⟨some 7, "farzaddaei", "CHARGING", 1000, 1, false⟩ else none)
        ⟨some 7, "farzaddaei", "CHARGING", 1000, 1, false⟩).2 ∧
    Notification.almostUp "WCMTDDDRV" ∉
      (processChargingUser
        (fun n => if n = "farzaddaei" then some "WCMTDDDRV" else none) false
        7200 7899 300
        (fun j => if j = 1 then some ⟨some 7, "farzaddaei", "CHARGING", 1000, 1, false⟩ else none)
        ⟨some 7, "farzaddaei", "CHARGING", 1000, 1, false⟩).2 := by
  constructor
  · exact (C2_threshold_boundary
      (fun n => if n = "farzaddaei" then some "WCMTDDDRV" else none) false
      7200 7900 300
      (fun j => if j = 1 then some ⟨some 7, "farzaddaei", "CHARGING", 1000, 1, false⟩ else none)
      ⟨some 7, "farzaddaei", "CHARGING", 1000, 1, false⟩
      ⟨some 7, "farzaddaei", "CHARGING", 1000, 1, false⟩
      "WCMTDDDRV" (by decide) rfl rfl (by decide) rfl).mpr (by norm_num)
  · intro hmem
    have hle := (C2_threshold_boundary
      (fun n => if n = "farzaddaei" then some "WCMTDDDRV" else none) false
      7200 7899 300
      (fun j => if j = 1 then some ⟨some 7, "farzaddaei", "CHARGING", 1000, 1, false⟩ else none)
      ⟨some 7, "farzaddaei", "CHARGING", 1000, 1, false⟩
      ⟨some 7, "farzaddaei", "CHARGING", 1000, 1, false⟩
      "WCMTDDDRV" (by decide) rfl rfl (by decide) rfl).mp hmem
    norm_num at hle

/-- C3: the notification flags are reset exactly on an occupant change and
are monotone otherwise.  Records built by the snapshot fetch carry flags
`false`; on a changed id the update block stores the new record verbatim
(so its flag is the fetched `false`, permitting fresh notifications); and
while the stored occupant keeps the observed id, a flag already `true` is
never set back to `false` — the stored record is left entirely unchanged. -/
theorem C3_flag_reset_exactly_on_new_occupant
    (slackUserIds : String → Option String) (firstRun : Bool)
    (maxCT currT warnOff : ℚ) (stc : ChargingMap) (sth : OnHoldMap)
    (user cur : ChargingUser) (huser hcur : OnHoldUser)
    (data : RawStationData) :
    (∀ u ∈ (getChargePointStationQueueDetail data).chargingUsers,
        u.exitNotified = false) ∧
    (∀ u ∈ (getChargePointStationQueueDetail data).onHoldUsers,
        u.waitingNotified = false) ∧
    (chargingOccupantChanged stc user = true →
      (updateChargingPhase firstRun maxCT stc user).1 user.outlet = some user) ∧
    (onHoldOccupantChanged sth huser = true →
      updateOnHoldPhase sth huser huser.outlet = some huser) ∧
    (stc user.outlet = some cur → cur.id = user.id → cur.exitNotified = true →
      (processChargingUser slackUserIds firstRun maxCT currT warnOff stc user).1
          user.outlet = some cur) ∧
    (sth huser.outlet = some hcur → hcur.id = huser.id →
      hcur.waitingNotified = true →
      (processOnHoldUser slackUserIds sth huser).1 huser.outlet = some hcur) := by
  refine ⟨?_, ?_, ?_, ?_, ?_, ?_⟩
  · intro u hu
    simp only [getChargePointStationQueueDetail, List.mem_filter,
      List.mem_map] at hu
    obtain ⟨⟨raw, _, hmap⟩, _⟩ := hu
    rw [← hmap]
    rfl
  · intro u hu
    simp only [getChargePointStationQueueDetail, List.mem_map] at hu
    obtain ⟨raw, _, hmap⟩ := hu
    rw [← hmap]
    rfl
  · intro hch
    rw [updateChargingPhase_changed firstRun maxCT hch]
    exact setCharging_eval_self stc user.outlet user
  · intro hch
    rw [updateOnHoldPhase_changed hch]
    exact setOnHold_eval_self sth huser.outlet huser
  · intro hst hid hflag
    rcases processChargingUser_same_id slackUserIds firstRun maxCT currT warnOff
        cur hst hid with h | ⟨rid, _, _, _, hflagf, _⟩
    · rw [h]
      exact hst
    · rw [hflag] at hflagf
      cases hflagf
  · intro hst hid hflag
    rcases processOnHoldUser_same_id slackUserIds hcur hst hid with
      h | ⟨rid, _, _, hflagf, _⟩
    · rw [h]
      exact hst
    · rw [hflag] at hflagf
      cases hflagf

/-- Witness for C3: a concrete occupant change stores the new record with its
fetched `false` flag, and a concrete same-id snapshot leaves a set flag set. -/
theorem C3_flag_reset_exactly_on_new_occupant_witness :
    (updateChargingPhase false 7200
        (fun j => if j = 1 then some ⟨some 3, "bob", "CHARGING", 500, 1, true⟩ else none)
        ⟨some 7, "farzaddaei", "CHARGING", 1000, 1, false⟩).1 1
      = some ⟨some 7, "farzaddaei", "CHARGING", 1000, 1, false⟩ ∧
    (processChargingUser
        (fun n => if n = "farzaddaei" then some "WCMTDDDRV" else none) false
        7200 7900 300
        (fun j => if j = 1 then some ⟨some 7, "farzaddaei", "CHARGING", 1000, 1, true⟩ else none)
        ⟨some 7, "farzaddaei", "CHARGING", 1000, 1, false⟩).1 1
      = some ⟨some 7, "farzaddaei", "CHARGING", 1000, 1, true⟩ := by
  have h := C3_flag_reset_exactly_on_new_occupant
    (fun n => if n = "farzaddaei" then some "WCMTDDDRV" else none) false
    7200 7900 300
    (fun j => if j = 1 then some ⟨some 3, "bob", "CHARGING", 500, 1, true⟩ else none)
    (fun _ => none)
    ⟨some 7, "farzaddaei", "CHARGING", 1000, 1, false⟩
    ⟨some 7, "farzaddaei", "CHARGING", 1000, 1, false⟩
    ⟨some 7, "farzaddaei", "ACCEPT_PENDING", 1, false⟩
    ⟨some 7, "farzaddaei", "ACCEPT_PENDING", 1, false⟩
    ⟨7200, 7900, [], []⟩
  have h2 := C3_flag_reset_exactly_on_new_occupant
    (fun n => if n = "farzaddaei" then some "WCMTDDDRV" else none) false
    7200 7900 300
    (fun j => if j = 1 then some ⟨some 7, "farzaddaei", "CHARGING", 1000, 1, true⟩ else none)
    (fun _ => none)
    ⟨some 7, "farzaddaei", "CHARGING", 1000, 1, false⟩
    ⟨some 7, "farzaddaei", "CHARGING", 1000, 1, true⟩
    ⟨some 7, "farzaddaei", "ACCEPT_PENDING", 1, false⟩
    ⟨some 7, "farzaddaei", "ACCEPT_PENDING", 1, false⟩
    ⟨7200, 7900, [], []⟩
  exact ⟨h.2.2.1 (by decide), h2.2.2.2.2.1 (by decide) rfl rfl⟩

lemma almostUpPhase_events_no_session (slackUserIds : String → Option String)
    (maxCT currT warnOff : ℚ) (st : ChargingMap) (outlet : Nat) :
    (almostUpPhase slackUserIds maxCT currT warnOff st outlet).2.filter
        (fun e => !e.isSessionStarted)
      = (almostUpPhase slackUserIds maxCT currT warnOff st outlet).2 := by
  rcases almostUpPhase_cases slackUserIds maxCT currT warnOff st outlet with
    h | ⟨cur, rid, _, _, _, _, _, h⟩ <;>
    rw [h] <;>
    simp [Notification.isSessionStarted]

/-- The `firstRun` flag changes exactly one thing in a charging-track step:
the "session started" message is dropped; the state update and the other
messages are identical. -/
lemma processChargingUser_firstRun_step (slackUserIds : String → Option String)
    (maxCT currT warnOff : ℚ) (st : ChargingMap) (user : ChargingUser) :
    (processChargingUser slackUserIds true maxCT currT warnOff st user).1
      = (processChargingUser slackUserIds false maxCT currT warnOff st user).1 ∧
    (processChargingUser slackUserIds true maxCT currT warnOff st user).2
      = (processChargingUser slackUserIds false maxCT currT warnOff st user).2.filter
          (fun e => !e.isSessionStarted) := by
  cases hch : chargingOccupantChanged st user with
  | false =>
    unfold processChargingUser
    rw [updateChargingPhase_same true maxCT hch,
      updateChargingPhase_same false maxCT hch]
    dsimp only
    refine ⟨rfl, ?_⟩
    simp only [List.nil_append]
    exact (almostUpPhase_events_no_session slackUserIds maxCT currT warnOff st
      user.outlet).symm
  | true =>
    unfold processChargingUser
    rw [updateChargingPhase_changed true maxCT hch,
      updateChargingPhase_changed false maxCT hch]
    dsimp only
    refine ⟨rfl, ?_⟩
    have he2 := almostUpPhase_events_no_session slackUserIds maxCT currT warnOff
      (setCharging st user.outlet user) user.outlet
    have hss : List.filter (fun e => !e.isSessionStarted)
        [Notification.sessionStarted user.name (user.startTime + maxCT)]
          = [] := rfl
    rw [if_pos rfl, if_neg Bool.false_ne_true, List.nil_append,
      List.filter_append, hss, he2, List.nil_append]

/-- List version of `processChargingUser_firstRun_step`. -/
lemma processChargingList_firstRun (slackUserIds : String → Option String)
    (maxCT currT warnOff : ℚ) :
    ∀ (l : List ChargingUser) (st : ChargingMap),
      (processChargingList slackUserIds true maxCT currT warnOff st l).1
        = (processChargingList slackUserIds false maxCT currT warnOff st l).1 ∧
      (processChargingList slackUserIds true maxCT currT warnOff st l).2
        = (processChargingList slackUserIds false maxCT currT warnOff st l).2.filter
            (fun e => !e.isSessionStarted) := by
  intro l
  induction l with
  | nil => intro st; exact ⟨rfl, rfl⟩
  | cons u rest ih =>
    intro st
    have hstep := processChargingUser_firstRun_step slackUserIds maxCT currT
      warnOff st u
    simp only [processChargingList]
    refine ⟨?_, ?_⟩
    · rw [hstep.1]
      exact (ih ((processChargingUser slackUserIds false maxCT currT warnOff
        st u).1)).1
    · rw [hstep.2, hstep.1,
        (ih ((processChargingUser slackUserIds false maxCT currT warnOff
          st u).1)).2, List.filter_append]

/-- Every message the on-hold track emits is a "your turn" message. -/
lemma processOnHoldList_events_yourTurn (slackUserIds : String → Option String) :
    ∀ (l : List OnHoldUser) (st : OnHoldMap),
      ∀ e ∈ (processOnHoldList slackUserIds st l).2, e.isYourTurn = true := by
  intro l
  induction l with
  | nil =>
    intro st e he
    simp [processOnHoldList] at he
  | cons u rest ih =>
    intro st e he
    simp only [processOnHoldList, List.mem_append] at he
    rcases he with he | he
    · unfold processOnHoldUser at he
      dsimp only at he
      rcases yourTurnPhase_cases slackUserIds (updateOnHoldPhase st u)
          u.outlet with h | ⟨cur, rid, _, _, _, _, h⟩
      · rw [h] at he
        simp at he
      · rw [h] at he
        simp only [List.mem_singleton] at he
        rw [he]
        rfl
    · exact ih _ e he

/-- C4: on the first poll after process start (`firstRun` truthy), no
"session started" message is emitted for any occupant in the snapshot, while
the "almost up" and "your turn" conditions are evaluated exactly as on a
regular poll: the resulting state is identical, and the emitted messages are
exactly the regular poll's messages with the "session started" ones removed. -/
theorem C4_first_run_suppression (slackUserIds : String → Option String)
    (warnOff : ℚ) (snap : Snapshot) (st : MonitorState) :
    (processSnapshot slackUserIds true warnOff snap st).1.charging
      = (processSnapshot slackUserIds false warnOff snap st).1.charging ∧
    (processSnapshot slackUserIds true warnOff snap st).1.onHold
      = (processSnapshot slackUserIds false warnOff snap st).1.onHold ∧
    (processSnapshot slackUserIds true warnOff snap st).2
      = (processSnapshot slackUserIds false warnOff snap st).2.filter
          (fun e => !e.isSessionStarted) ∧
    (processSnapshot slackUserIds true warnOff snap st).2.countP
        (fun e => e.isSessionStarted) = 0 := by
  have hc := processChargingList_firstRun slackUserIds snap.maxChargingTime
    snap.currTime warnOff snap.chargingUsers st.charging
  have hh := processOnHoldList_events_yourTurn slackUserIds snap.onHoldUsers
    st.onHold
  unfold processSnapshot
  dsimp only
  refine ⟨hc.1, rfl, ?_, ?_⟩
  · rw [hc.2, List.filter_append]
    congr 1
    refine (List.filter_eq_self.mpr fun e he => ?_).symm
    have := hh e he
    cases e <;> simp_all [Notification.isYourTurn, Notification.isSessionStarted]
  · rw [List.countP_append, hc.2]
    have h1 : List.countP (fun e => e.isSessionStarted)
        ((processChargingList slackUserIds false snap.maxChargingTime
          snap.currTime warnOff st.charging snap.chargingUsers).2.filter
          (fun e => !e.isSessionStarted)) = 0 := by
      refine List.countP_eq_zero.mpr fun e he => ?_
      have hb := (List.mem_filter.mp he).2
      have hb2 : e.isSessionStarted = false := by
        revert hb
        cases e.isSessionStarted <;> simp
      simp [hb2]
    have h2 : List.countP (fun e => e.isSessionStarted)
        (processOnHoldList slackUserIds st.onHold snap.onHoldUsers).2 = 0 := by
      refine List.countP_eq_zero.mpr fun e he => ?_
      have := hh e he
      cases e <;> simp_all [Notification.isYourTurn, Notification.isSessionStarted]
    rw [h1, h2]

/-- C5 counterexample: in a steady-state cycle (weekday noon, `firstRun`
false), a failing snapshot fetch leaves the invocation rejected with no next
timer armed: the next poll cycle is not scheduled on the regular timer, and
timer-scheduled invocations have no rejection handler. -/
theorem C5_counterexample_fetch_failure_stops_loop :
    (runPollCycle (fun _ => none) 8 18 2 12 300 true none false
        ⟨fun _ => none, fun _ => none⟩).nextTimer = none ∧
    (runPollCycle (fun _ => none) 8 18 2 12 300 true none false
        ⟨fun _ => none, fun _ => none⟩).nextTimer ≠ some NextTimer.regularTimer ∧
    (runPollCycle (fun _ => none) 8 18 2 12 300 true none false
        ⟨fun _ => none, fun _ => none⟩).raised = true ∧
    hasRejectionHandler CallSource.regularTimer = false := by
  refine ⟨rfl, ?_, rfl, rfl⟩
  intro h
  cases h

/-- C5 amended: if the session refresh or the snapshot fetch fails in a cycle
that reached the polling branch, the cycle is aborted with no state change
and no messages, but the rejection propagates out of the async function —
unhandled for every invocation except the startup one — and no next cycle is
scheduled on any timer: the polling loop halts. -/
theorem C5_amended_failure_halts_loop (slackUserIds : String → Option String)
    (startT stopT day hour : Nat) (warnOff : ℚ) (authOk : Bool)
    (fetchResult : Option RawStationData) (firstRun : Bool) (st : MonitorState)
    (hgate : gateDecision startT stopT day hour = PollDecision.poll)
    (hfail : authOk = false ∨ fetchResult = none) :
    (runPollCycle slackUserIds startT stopT day hour warnOff authOk fetchResult
        firstRun st).nextTimer = none ∧
    (runPollCycle slackUserIds startT stopT day hour warnOff authOk fetchResult
        firstRun st).raised = true ∧
    (runPollCycle slackUserIds startT stopT day hour warnOff authOk fetchResult
        firstRun st).state = st ∧
    (runPollCycle slackUserIds startT stopT day hour warnOff authOk fetchResult
        firstRun st).events = [] ∧
    hasRejectionHandler CallSource.regularTimer = false ∧
    hasRejectionHandler CallSource.weekendTimer = false ∧
    hasRejectionHandler CallSource.afterHoursTimer = false := by
  unfold runPollCycle
  rw [hgate]
  by_cases ha : authOk = false
  · rw [if_pos ha]
    exact ⟨rfl, rfl, rfl, rfl, rfl, rfl, rfl⟩
  · have hf : fetchResult = none := by
      rcases hfail with h | h
      · exact absurd h ha
      · exact h
    rw [if_neg ha, hf]
    exact ⟨rfl, rfl, rfl, rfl, rfl, rfl, rfl⟩

/-- Witness for the amended C5: a concrete weekday cycle whose session
refresh fails. -/
theorem C5_amended_failure_halts_loop_witness :
    (runPollCycle (fun _ => none) 8 18 3 9 300 false
        (some ⟨7200, 1000, [], []⟩) false
        ⟨fun _ => none, fun _ => none⟩).nextTimer = none ∧
    (runPollCycle (fun _ => none) 8 18 3 9 300 false
        (some ⟨7200, 1000, [], []⟩) false
        ⟨fun _ => none, fun _ => none⟩).raised = true :=
  ⟨(C5_amended_failure_halts_loop (fun _ => none) 8 18 3 9 300 false
      (some ⟨7200, 1000, [], []⟩) false ⟨fun _ => none, fun _ => none⟩
      (by decide) (Or.inl rfl)).1,
   (C5_amended_failure_halts_loop (fun _ => none) 8 18 3 9 300 false
      (some ⟨7200, 1000, [], []⟩) false ⟨fun _ => none, fun _ => none⟩
      (by decide) (Or.inl rfl)).2.1⟩

/-- C6 (evaluating the gate at the divergent inputs): with the default
working hours, the gate proceeds to poll on Sunday noon (JS `getDay() = 0`)
and takes the weekend branch on Monday noon (`getDay() = 1`), because the
constant named `sundayDayOfWeek` holds the value `1`, which is Monday under
JavaScript day numbering (`isWeekendDay` records the actual weekend days);
Saturday (`6`) is handled as intended, and the after-hours branch fires for
hours outside the configured bounds on weekdays. -/
theorem C6_weekend_gate_day_numbering :
    gateDecision workingStarTime workingStopTime 0 12 = PollDecision.poll ∧
    isWeekendDay 0 = true ∧
    gateDecision workingStarTime workingStopTime 1 12
      = PollDecision.weekendSleep ∧
    isWeekendDay 1 = false ∧
    gateDecision workingStarTime workingStopTime 6 12
      = PollDecision.weekendSleep ∧
    isWeekendDay 6 = true ∧
    gateDecision workingStarTime workingStopTime 2 7
      = PollDecision.afterHoursSleep ∧
    gateDecision workingStarTime workingStopTime 2 19
      = PollDecision.afterHoursSleep ∧
    gateDecision workingStarTime workingStopTime 2 8 = PollDecision.poll ∧
    gateDecision workingStarTime workingStopTime 2 18 = PollDecision.poll := by
  decide

lemma setCharging_eval_other (st : ChargingMap) (outlet : Nat) (u : ChargingUser)
    (j : Nat) (h : j ≠ outlet) : setCharging st outlet u j = st j := by
  unfold setCharging
  rw [if_neg h]

lemma setOnHold_eval_other (st : OnHoldMap) (outlet : Nat) (u : OnHoldUser)
    (j : Nat) (h : j ≠ outlet) : setOnHold st outlet u j = st j := by
  unfold setOnHold
  rw [if_neg h]

/-- C7: the snapshot fetch removes from `chargingUsers` every entry whose
subscriber identifier is undefined and keeps the rest, mapped from the remote
record with `exitNotified` initialised to `false`; `onHoldUsers` is returned
as the plain mapping of every raw entry — no such filter — with
`waitingNotified` initialised to `false`. -/
theorem C7_undefined_id_filter_asymmetry (data : RawStationData) :
    (getChargePointStationQueueDetail data).chargingUsers
      = (data.chargingUsers.filter (fun u => u.subscriberId ≠ none)).map
          mapChargingUser ∧
    (∀ u ∈ (getChargePointStationQueueDetail data).chargingUsers,
        u.id ≠ none ∧ u.exitNotified = false) ∧
    (getChargePointStationQueueDetail data).onHoldUsers
      = data.onHoldUsers.map mapOnHoldUser ∧
    (∀ u ∈ (getChargePointStationQueueDetail data).onHoldUsers,
        u.waitingNotified = false) := by
  refine ⟨filter_map_charging data.chargingUsers, ?_, rfl, ?_⟩
  · intro u hu
    simp only [getChargePointStationQueueDetail, List.mem_filter,
      List.mem_map] at hu
    obtain ⟨⟨raw, _, hmap⟩, hid⟩ := hu
    refine ⟨by simpa using hid, ?_⟩
    rw [← hmap]
    rfl
  · intro u hu
    simp only [getChargePointStationQueueDetail, List.mem_map] at hu
    obtain ⟨raw, _, hmap⟩ := hu
    rw [← hmap]
    rfl

/-- Witness for C7: a response with an id-less charging entry and an id-less
on-hold entry keeps only the identified charging entry but keeps the id-less
on-hold entry. -/
theorem C7_undefined_id_filter_asymmetry_witness :
    (getChargePointStationQueueDetail
        ⟨7200, 5,
         [⟨none, "x", "CHARGING", 1000000, 1⟩,
          ⟨some 3, "y", "CHARGING", 2000500, 2⟩],
         [⟨none, "z", "ACCEPT_PENDING", 1⟩]⟩).chargingUsers
      = [⟨some 3, "y", "CHARGING", 2000500 / 1000, 2, false⟩] ∧
    (getChargePointStationQueueDetail
        ⟨7200, 5,
         [⟨none, "x", "CHARGING", 1000000, 1⟩,
          ⟨some 3, "y", "CHARGING", 2000500, 2⟩],
         [⟨none, "z", "ACCEPT_PENDING", 1⟩]⟩).onHoldUsers
      = [⟨none, "z", "ACCEPT_PENDING", 1, false⟩] :=
  ⟨((C7_undefined_id_filter_asymmetry
      ⟨7200, 5,
       [⟨none, "x", "CHARGING", 1000000, 1⟩,
        ⟨some 3, "y", "CHARGING", 2000500, 2⟩],
       [⟨none, "z", "ACCEPT_PENDING", 1⟩]⟩).1).trans rfl,
   ((C7_undefined_id_filter_asymmetry
      ⟨7200, 5,
       [⟨none, "x", "CHARGING", 1000000, 1⟩,
        ⟨some 3, "y", "CHARGING", 2000500, 2⟩],
       [⟨none, "z", "ACCEPT_PENDING", 1⟩]⟩).2.2.1).trans rfl⟩

/-- C8: for an occupant whose name is absent from the name-to-recipient
mapping, no recipient-referencing message is emitted: an unchanged occupant
with an unmapped name yields no message on either track, and a changed
occupant with an unmapped name still yields exactly the "session started"
message, which performs no recipient lookup. -/
theorem C8_unknown_recipient_suppression
    (slackUserIds : String → Option String) (maxCT currT warnOff : ℚ)
    (stc : ChargingMap) (sth : OnHoldMap)
    (user cur : ChargingUser) (huser hcur : OnHoldUser) :
    (chargingOccupantChanged stc user = true → slackUserIds user.name = none →
      processChargingUser slackUserIds false maxCT currT warnOff stc user
        = (setCharging stc user.outlet user,
           [Notification.sessionStarted user.name (user.startTime + maxCT)])) ∧
    (stc user.outlet = some cur → cur.id = user.id →
      slackUserIds cur.name = none →
      processChargingUser slackUserIds false maxCT currT warnOff stc user
        = (stc, [])) ∧
    (onHoldOccupantChanged sth huser = true → slackUserIds huser.name = none →
      processOnHoldUser slackUserIds sth huser
        = (setOnHold sth huser.outlet huser, [])) ∧
    (sth huser.outlet = some hcur → hcur.id = huser.id →
      slackUserIds hcur.name = none →
      processOnHoldUser slackUserIds sth huser = (sth, [])) := by
  refine ⟨?_, ?_, ?_, ?_⟩
  · intro hch hname
    rcases processChargingUser_changed slackUserIds false maxCT currT warnOff
        hch with h | ⟨rid, _, hname2, _, _, _⟩
    · rw [h]
      simp
    · rw [hname] at hname2
      cases hname2
  · intro hst hid hname
    rcases processChargingUser_same_id slackUserIds false maxCT currT warnOff
        cur hst hid with h | ⟨rid, _, hname2, _, _, _⟩
    · exact h
    · rw [hname] at hname2
      cases hname2
  · intro hch hname
    rcases processOnHoldUser_changed slackUserIds hch with
      h | ⟨rid, _, hname2, _, _⟩
    · exact h
    · rw [hname] at hname2
      cases hname2
  · intro hst hid hname
    rcases processOnHoldUser_same_id slackUserIds hcur hst hid with
      h | ⟨rid, _, hname2, _, _⟩
    · exact h
    · rw [hname] at hname2
      cases hname2

/-- Witness for C8: with an empty mapping, a new occupant still produces the
"session started" message, and a pending unchanged on-hold occupant produces
nothing. -/
theorem C8_unknown_recipient_suppression_witness :
    processChargingUser (fun _ => none) false 7200 7900 300 (fun _ => none)
        ⟨some 7, "mallory", "CHARGING", 1000, 1, false⟩
      = (setCharging (fun _ => none) 1
           ⟨some 7, "mallory", "CHARGING", 1000, 1, false⟩,
         [Notification.sessionStarted "mallory" (1000 + 7200)]) ∧
    processOnHoldUser (fun _ => none)
        (fun j => if j = 1
          then some ⟨some 7, "mallory", "ACCEPT_PENDING", 1, false⟩ else none)
        ⟨some 7, "mallory", "ACCEPT_PENDING", 1, false⟩
      = ((fun j => if j = 1
          then some ⟨some 7, "mallory", "ACCEPT_PENDING", 1, false⟩ else none),
         []) :=
  ⟨(C8_unknown_recipient_suppression (fun _ => none) 7200 7900 300
      (fun _ => none)
      (fun j => if j = 1
        then some ⟨some 7, "mallory", "ACCEPT_PENDING", 1, false⟩ else none)
      ⟨some 7, "mallory", "CHARGING", 1000, 1, false⟩
      ⟨some 7, "mallory", "CHARGING", 1000, 1, false⟩
      ⟨some 7, "mallory", "ACCEPT_PENDING", 1, false⟩
      ⟨some 7, "mallory", "ACCEPT_PENDING", 1, false⟩).1 rfl rfl,
   (C8_unknown_recipient_suppression (fun _ => none) 7200 7900 300
      (fun _ => none)
      (fun j => if j = 1
        then some ⟨some 7, "mallory", "ACCEPT_PENDING", 1, false⟩ else none)
      ⟨some 7, "mallory", "CHARGING", 1000, 1, false⟩
      ⟨some 7, "mallory", "CHARGING", 1000, 1, false⟩
      ⟨some 7, "mallory", "ACCEPT_PENDING", 1, false⟩
      ⟨some 7, "mallory", "ACCEPT_PENDING", 1, false⟩).2.2.2
     (by decide) rfl rfl⟩

/-- C9: while the same occupant (same id) holds an outlet on either track,
processing an observation leaves every stored field except the notification
flag unchanged — id, name, status, startTime, and outlet keep their stored
values even if the observation reports different values — and the flag can
only move from false to true; observations for other outlets leave the slot
untouched. -/
theorem C9_same_occupant_frame
    (slackUserIds : String → Option String) (firstRun : Bool)
    (maxCT currT warnOff : ℚ) (stc : ChargingMap) (sth : OnHoldMap)
    (user cur : ChargingUser) (huser hcur : OnHoldUser) (j : Nat) :
    (stc user.outlet = some cur → cur.id = user.id →
      ∃ cur2, (processChargingUser slackUserIds firstRun maxCT currT warnOff
            stc user).1 user.outlet = some cur2 ∧
        cur2.id = cur.id ∧ cur2.name = cur.name ∧ cur2.status = cur.status ∧
        cur2.startTime = cur.startTime ∧ cur2.outlet = cur.outlet ∧
        (cur2.exitNotified = cur.exitNotified ∨
          (cur.exitNotified = false ∧ cur2.exitNotified = true))) ∧
    (sth huser.outlet = some hcur → hcur.id = huser.id →
      ∃ hcur2, (processOnHoldUser slackUserIds sth huser).1 huser.outlet
          = some hcur2 ∧
        hcur2.id = hcur.id ∧ hcur2.name = hcur.name ∧
        hcur2.status = hcur.status ∧ hcur2.outlet = hcur.outlet ∧
        (hcur2.waitingNotified = hcur.waitingNotified ∨
          (hcur.waitingNotified = false ∧ hcur2.waitingNotified = true))) ∧
    (j ≠ user.outlet →
      (processChargingUser slackUserIds firstRun maxCT currT warnOff stc
        user).1 j = stc j) ∧
    (j ≠ huser.outlet →
      (processOnHoldUser slackUserIds sth huser).1 j = sth j) := by
  refine ⟨?_, ?_, ?_, ?_⟩
  · intro hst hid
    rcases processChargingUser_same_id slackUserIds firstRun maxCT currT
        warnOff cur hst hid with h | ⟨rid, _, _, _, hflag, h⟩
    · rw [h]
      exact ⟨cur, hst, rfl, rfl, rfl, rfl, rfl, Or.inl rfl⟩
    · rw [h]
      exact ⟨{ cur with exitNotified := true },
        setCharging_eval_self stc user.outlet _,
        rfl, rfl, rfl, rfl, rfl, Or.inr ⟨hflag, rfl⟩⟩
  · intro hst hid
    rcases processOnHoldUser_same_id slackUserIds hcur hst hid with
      h | ⟨rid, _, _, hflag, h⟩
    · rw [h]
      exact ⟨hcur, hst, rfl, rfl, rfl, rfl, Or.inl rfl⟩
    · rw [h]
      exact ⟨{ hcur with waitingNotified := true },
        setOnHold_eval_self sth huser.outlet _,
        rfl, rfl, rfl, rfl, Or.inr ⟨hflag, rfl⟩⟩
  · intro hj
    cases hch : chargingOccupantChanged stc user with
    | false =>
      obtain ⟨cur2, hst2, hid2⟩ := chargingOccupantChanged_false_elim hch
      rcases processChargingUser_same_id slackUserIds firstRun maxCT currT
          warnOff cur2 hst2 hid2 with h | ⟨rid, _, _, _, _, h⟩
      · rw [h]
      · rw [h]
        exact setCharging_eval_other stc user.outlet _ j hj
    | true =>
      rcases processChargingUser_changed slackUserIds firstRun maxCT currT
          warnOff hch with h | ⟨rid, _, _, _, _, h⟩
      · rw [h]
        exact setCharging_eval_other stc user.outlet _ j hj
      · rw [h]
        exact setCharging_eval_other stc user.outlet _ j hj
  · intro hj
    cases hch : onHoldOccupantChanged sth huser with
    | false =>
      obtain ⟨hcur2, hst2, hid2⟩ := onHoldOccupantChanged_false_elim hch
      rcases processOnHoldUser_same_id slackUserIds hcur2 hst2 hid2 with
        h | ⟨rid, _, _, _, h⟩
      · rw [h]
      · rw [h]
        exact setOnHold_eval_other sth huser.outlet _ j hj
    | true =>
      rcases processOnHoldUser_changed slackUserIds hch with
        h | ⟨rid, _, _, _, h⟩
      · rw [h]
        exact setOnHold_eval_other sth huser.outlet _ j hj
      · rw [h]
        exact setOnHold_eval_other sth huser.outlet _ j hj

/-- Witness for C9: a same-id observation reporting a different name, status,
and startTime leaves the stored record's non-flag fields unchanged, and
outlet 2 is untouched. -/
theorem C9_same_occupant_frame_witness :
    ((processChargingUser
        (fun n => if n = "farzaddaei" then some "WCMTDDDRV" else none) false
        7200 7900 300
        (fun j => if j = 1
          then some ⟨some 7, "farzaddaei", "CHARGING", 1000, 1, false⟩ else none)
        ⟨some 7, "other", "WAITING", 2000, 1, false⟩).1 1).map
        (fun u => (u.id, u.name, u.status, u.startTime, u.outlet))
      = some (some 7, "farzaddaei", "CHARGING", (1000 : ℚ), 1) ∧
    (processChargingUser
        (fun n => if n = "farzaddaei" then some "WCMTDDDRV" else none) false
        7200 7900 300
        (fun j => if j = 1
          then some ⟨some 7, "farzaddaei", "CHARGING", 1000, 1, false⟩ else none)
        ⟨some 7, "other", "WAITING", 2000, 1, false⟩).1 2
      = none := by
  have h := C9_same_occupant_frame
    (fun n => if n = "farzaddaei" then some "WCMTDDDRV" else none) false
    7200 7900 300
    (fun j => if j = 1
      then some ⟨some 7, "farzaddaei", "CHARGING", 1000, 1, false⟩ else none)
    (fun _ => none)
    ⟨some 7, "other", "WAITING", 2000, 1, false⟩
    ⟨some 7, "farzaddaei", "CHARGING", 1000, 1, false⟩
    ⟨some 7, "x", "ACCEPT_PENDING", 1, false⟩
    ⟨some 7, "x", "ACCEPT_PENDING", 1, false⟩ 2
  obtain ⟨cur2, hst2, hid2, hname2, hstatus2, hstart2, houtlet2, hflag2⟩ :=
    h.1 (by decide) rfl
  refine ⟨?_, (h.2.2.1 (by decide)).trans rfl⟩
  rw [hst2]
  simp [hid2, hname2, hstatus2, hstart2, houtlet2]

/-- C10: the `firstRun` argument is truthy only for the single startup
invocation `pollChargePoint(true)`; every internally scheduled invocation
(weekend timer, after-hours timer, regular timer) calls `pollChargePoint`
with no arguments, so `firstRun` is `undefined`, which is falsy. -/
theorem C10_firstRun_true_only_at_startup (src : CallSource) :
    firstRunArgument src = true ↔ src = CallSource.startup := by
  cases src <;> simp [firstRunArgument]

/-- Witness for C10: the startup call passes a truthy `firstRun`; the
regular-timer call does not. -/
theorem C10_firstRun_true_only_at_startup_witness :
    firstRunArgument CallSource.startup = true ∧
    firstRunArgument CallSource.regularTimer = false :=
  ⟨(C10_firstRun_true_only_at_startup CallSource.startup).mpr rfl,
   Bool.eq_false_iff.mpr (fun h => by
     cases (C10_firstRun_true_only_at_startup CallSource.regularTimer).mp h)⟩

end ChargePointNotifier
